import Mathlib

/-!
# SwapTagBackend — verification of the specification against the code

Shallow embedding of the SwapTag fee/exchange backend (a Flask application):

* `app.py` — fee plans (`FEES`), `calculate_fee`, the FX cache (`_fx_cache`,
  `get_fx_rates`), the route handlers `api_fx_latest`, `api_calculate`,
  `api_simulate`, the canned chat responder `fallback_respond` and the
  `/api/chat` handler;
* `Backendside/__init__.py` — the single-slot FX cache (`FX_CACHE`),
  `get_exchange` and `simulate_transaction`;
* `Backendside/appInfo.py` — the `post_exchange` fee/conversion arithmetic.

Python floats are idealised as rationals (`ℚ`); `round(x, n)` becomes
`roundTo n x`, rounding `x * 10^n` to the nearest integer (Python rounds
exact ties to even; no property below depends on a tie, so Mathlib's
half-up `round` is used).  Machine time (`time.time()`) is an explicit
parameter `now`.  Upstream HTTP calls are explicit oracle parameters:
`Option`-valued functions where `none` models a request failure
(exception, non-2xx status, or undecodable body).  Each operation that may
call upstream returns, besides its result, the number of upstream calls it
performed, so that cache claims about "zero upstream calls" are statable.
JSON number maps (FX rate tables) are association lists `List (String × ℚ)`;
Python dict truthiness is emptiness of that list.
-/

/-- `str.upper()` of Python (ASCII case mapping, per character). -/
def pyUpper (s : String) : String := ⟨s.data.map Char.toUpper⟩

/-- `str.lower()` of Python (ASCII case mapping, per character). -/
def pyLower (s : String) : String := ⟨s.data.map Char.toLower⟩

/-- `str.strip()` of Python: drop leading and trailing whitespace. -/
def pyStrip (s : String) : String :=
  ⟨((s.data.dropWhile (·.isWhitespace)).reverse.dropWhile
      (·.isWhitespace)).reverse⟩

/-- Whether the first list starts with the second. -/
def isPrefixList : List Char → List Char → Bool
  | [], _ => true
  | _ :: _, [] => false
  | a :: as, b :: bs => a == b && isPrefixList as bs

/-- Substring search on character lists. -/
def containsList (needle : List Char) : List Char → Bool
  | [] => needle.isEmpty
  | c :: rest => isPrefixList needle (c :: rest) || containsList needle rest

/-- `needle in hay` of Python: substring containment. -/
def pyContains (hay needle : String) : Bool := containsList needle.data hay.data

/-- `round(x, n)` of Python, idealised over `ℚ`: round `x` to `n` decimal
places (nearest integer multiple of `10 ^ (-n)`). -/
def roundTo (n : ℕ) (x : ℚ) : ℚ :=
  ((round (x * (10 : ℚ) ^ n) : ℤ) : ℚ) / (10 : ℚ) ^ n

/-- A fee plan, as in the `FEES` list of `app.py`. -/
structure FeePlan where
  id : ℕ
  name : String
  description : String
  fixed_fee : ℚ
  percent_fee : ℚ
deriving Repr, DecidableEq

namespace App

/-- The static fee-plan table `FEES` of `app.py` (lines 27–31). -/
def FEES : List FeePlan :=
  [ ⟨1, "Basic", "For casual users", 1/2, 5/1000⟩,
    ⟨2, "Standard", "For active users", 1/4, 35/10000⟩,
    ⟨3, "Pro", "For power users", 1/10, 2/1000⟩ ]

/-- The static `SWAPTAG_META` referral map of `app.py` (lines 34–37):
tag ↦ (team, payout percent). -/
def SWAPTAG_META : List (String × String × ℚ) :=
  [("TEAMEX", ("Team Excellence", 10/100)), ("TAIWO", ("Taiwo", 12/100))]

/-- The fee breakdown dictionary returned by `calculate_fee` in `app.py`. -/
structure FeeBreakdown where
  plan : String
  fixed_fee : ℚ
  percent_fee : ℚ
  percent_amount : ℚ
  total_fee : ℚ
  net_amount : ℚ
deriving Repr, DecidableEq

/-- `calculate_fee(amount, fee_plan_id)` of `app.py` (lines 74–98).
`.error` models the `ValueError("Invalid fee plan id")` raise. -/
def calculate_fee (amount : ℚ) (fee_plan_id : ℤ) : Except String FeeBreakdown :=
  match FEES.find? (fun p => ((p.id : ℤ)) == fee_plan_id) with
  | none => .error "Invalid fee plan id"
  | some plan =>
    let fixed := plan.fixed_fee
    let percent := plan.percent_fee
    let percent_amount := amount * percent
    let total_fee := fixed + percent_amount
    let net_amount := amount - total_fee
    .ok { plan := plan.name
          fixed_fee := roundTo 6 fixed
          percent_fee := percent
          percent_amount := roundTo 6 percent_amount
          total_fee := roundTo 6 total_fee
          net_amount := roundTo 6 net_amount }

/-! ## FX rate cache of `app.py` -/

/-- The mutable module-level cache `_fx_cache = {"rates": {}, "base": "USD",
"ts": 0}` of `app.py` (line 40). -/
structure FxCache where
  rates : List (String × ℚ)
  base : String
  ts : ℤ
deriving Repr, DecidableEq

/-- The initial `_fx_cache` value of `app.py` (line 40). -/
def initFxCache : FxCache := { rates := [], base := "USD", ts := 0 }

/-- `FX_TTL_SECONDS = 60 * 5` of `app.py` (line 41). -/
def FX_TTL_SECONDS : ℤ := 60 * 5

/-- A decoded successful FX-provider response body: its `rates` map and its
optional `base` field (`data.get("base", base)` falls back to the requested
base when the provider omits it). -/
structure FxResponse where
  rates : List (String × ℚ)
  base : Option String
deriving Repr, DecidableEq

/-- An FX upstream oracle: requested base ↦ decoded response, `none`
modelling a failed request (timeout, non-2xx, bad body). -/
def FxUpstream : Type := String → Option FxResponse

/-- Result of one `get_fx_rates` invocation: the returned
`(rates, base, ts)` triple (or `.error` for the re-raised exception), the
cache after the call, and how many upstream requests were performed. -/
structure FxFetch where
  result : Except Unit (List (String × ℚ) × String × ℤ)
  cache : FxCache
  upstreamCalls : ℕ

/-- `get_fx_rates(base)` of `app.py` (lines 47–71).  The cache is served
when it is non-empty, stores the same base, and is younger than the TTL;
otherwise one upstream request is made.  On upstream failure the stale
cache is returned when non-empty, else the exception propagates
(`raise`). -/
def get_fx_rates (upstream : FxUpstream) (cache : FxCache) (now : ℤ)
    (base : String) : FxFetch :=
  if cache.rates ≠ [] ∧ cache.base = base ∧ now - cache.ts < FX_TTL_SECONDS then
    ⟨.ok (cache.rates, cache.base, cache.ts), cache, 0⟩
  else
    match upstream base with
    | some resp =>
      let newCache : FxCache := ⟨resp.rates, resp.base.getD base, now⟩
      ⟨.ok (newCache.rates, newCache.base, newCache.ts), newCache, 1⟩
    | none =>
      if cache.rates ≠ [] then
        ⟨.ok (cache.rates, cache.base, cache.ts), cache, 1⟩
      else
        ⟨.error (), cache, 1⟩

/-! ## Route handlers of `app.py` -/

/-- Outcome of `GET /api/fx/latest` (`api_fx_latest`, lines 110–121). -/
inductive FxLatestOutcome where
  /-- HTTP 200 with `{base, ts, rates}`. -/
  | ok (base : String) (ts : ℤ) (rates : List (String × ℚ))
  /-- HTTP 503 `{"error": "unable_to_fetch_fx"}`. -/
  | unableToFetchFx
deriving Repr, DecidableEq

/-- `api_fx_latest` of `app.py` (lines 110–121): upper-cases the requested
base, calls `get_fx_rates`, and maps any exception to a 503 response. -/
def api_fx_latest (upstream : FxUpstream) (cache : FxCache) (now : ℤ)
    (baseParam : Option String) : FxLatestOutcome × FxCache × ℕ :=
  let base := pyUpper (baseParam.getD "USD")
  match get_fx_rates upstream cache now base with
  | ⟨.ok (rates, base_from, ts), c, n⟩ => (.ok base_from ts rates, c, n)
  | ⟨.error _, c, n⟩ => (.unableToFetchFx, c, n)

/-- Outcome of `POST /api/calculate` (`api_calculate`, lines 123–147). -/
inductive CalcOutcome where
  /-- HTTP 200 with the fee breakdown plus the echoed currency. -/
  | ok (calculation : FeeBreakdown) (currency : String)
  /-- HTTP 400 `{"error": "invalid_amount"}`. -/
  | invalidAmount
  /-- HTTP 400 `{"error": "bad_request", "message": msg}` (caught
  `ValueError`). -/
  | badRequest (msg : String)
deriving Repr, DecidableEq

/-- `api_calculate` of `app.py` (lines 123–147), for a well-typed JSON
body: rejects `amount ≤ 0` with 400 before computing, and maps the
`ValueError` of `calculate_fee` to a 400 response. -/
def api_calculate (amount : ℚ) (fee_plan_id : ℤ) (currency : String) :
    CalcOutcome :=
  if amount ≤ 0 then .invalidAmount
  else
    match calculate_fee amount fee_plan_id with
    | .ok result => .ok result currency
    | .error msg => .badRequest msg

/-- JSON body of `POST /api/simulate` in `app.py` (after the `float?/int?`
coercions of lines 164–168 succeeded). -/
structure SimulatePayload where
  amount : ℚ
  from_currency : String
  to_currency : String
  fee_plan_id : ℤ
  swap_tag : Option String
deriving Repr, DecidableEq

/-- Successful `api_simulate` response body (`app.py` lines 185–197). -/
structure SimulateResponse where
  amount : ℚ
  from_currency : String
  to_currency : String
  fee : FeeBreakdown
  rate : ℚ
  base : String
  ts : ℤ
  converted_net_amount : ℚ
  swap_tag : Option (String × String × ℚ)
deriving Repr, DecidableEq

/-- Outcome of `POST /api/simulate` (`api_simulate`, lines 149–202). -/
inductive SimOutcome where
  /-- HTTP 200. -/
  | ok (resp : SimulateResponse)
  /-- HTTP 400 `{"error": "unsupported_currency", "supported": …}`. -/
  | unsupportedCurrency (supported : List String)
  /-- HTTP 503 `{"error": "fx_error", …}` (exception caught in the FX
  block). -/
  | fxError
  /-- An exception raised outside any `try` block: Flask turns it into a
  generic HTTP 500, not a 400. -/
  | uncaughtError (msg : String)
deriving Repr, DecidableEq

/-- Whether a `SimOutcome` is the HTTP 200 success case. -/
def SimOutcome.isOk : SimOutcome → Bool
  | .ok _ => true
  | _ => false

/-- The reported `fee.total_fee` of a 200 simulation response, if any. -/
def SimOutcome.totalFee : SimOutcome → Option ℚ
  | .ok r => some r.fee.total_fee
  | _ => none

/-- The reported `fee.net_amount` of a 200 simulation response, if any. -/
def SimOutcome.netAmount : SimOutcome → Option ℚ
  | .ok r => some r.fee.net_amount
  | _ => none

/-- The reported `converted_net_amount` of a 200 simulation response, if
any. -/
def SimOutcome.convertedNet : SimOutcome → Option ℚ
  | .ok r => some r.converted_net_amount
  | _ => none

/-- `api_simulate` of `app.py` (lines 149–202).  Note the order of
operations in the source: `calculate_fee` runs at line 173 *outside* the
`try` that guards the FX block, so its `ValueError` is uncaught; the
amount is never compared with zero.  The handler persists nothing (the
empty list of persisted referral records makes that explicit). -/
def api_simulate (upstream : FxUpstream) (cache : FxCache) (now : ℤ)
    (payload : SimulatePayload) : SimOutcome × FxCache × ℕ × List Unit :=
  let from_currency := pyUpper payload.from_currency
  let to_currency := pyUpper payload.to_currency
  match calculate_fee payload.amount payload.fee_plan_id with
  | .error msg => (.uncaughtError msg, cache, 0, [])
  | .ok fee_breakdown =>
    match get_fx_rates upstream cache now from_currency with
    | ⟨.error _, c, n⟩ => (.fxError, c, n, [])
    | ⟨.ok (rates, base, ts), c, n⟩ =>
      match rates.lookup to_currency with
      | none => (.unsupportedCurrency (rates.map Prod.fst), c, n, [])
      | some rate =>
        let net_amount := fee_breakdown.net_amount
        let converted := roundTo 6 (net_amount * rate)
        let tagInfo := payload.swap_tag.map fun tag =>
          (tag, (SWAPTAG_META.lookup (pyUpper tag)).getD ("unknown", 0))
        (.ok { amount := payload.amount
               from_currency := from_currency
               to_currency := to_currency
               fee := fee_breakdown
               rate := rate
               base := base
               ts := ts
               converted_net_amount := converted
               swap_tag := tagInfo }, c, n, [])

/-! ## Canned chat responder and `/api/chat` of `app.py` -/

/-- The fee sentence of `fallback_respond` (`app.py` lines 233–234). -/
def feeSentence : String :=
  "You can view current fees by clicking the fee list or using the simulator. Try the \x27Simulate\x27 button to estimate fees for a specific swap."

/-- The simulator sentence of `fallback_respond` (lines 236–237). -/
def simulatorSentence : String :=
  "Use the calculator to enter an amount, choose currencies and a plan, then press Simulate to see fees and the converted amount."

/-- The referral sentence of `fallback_respond` (line 239). -/
def referralSentence : String :=
  "Include your SwapTag in the simulator\x27s referral field and we\x27ll track conversions for your team."

/-- The FX sentence of `fallback_respond` (line 241). -/
def fxSentence : String :=
  "FX rates are available in the \x27FX\x27 dropdown. For USD→NGN, we use VitalSwap\x27s official rates."

/-- The generic greeting/help sentence of `fallback_respond`
(lines 243–244). -/
def genericSentence : String :=
  "Hi — I can answer questions about fees, the simulator, referrals, and FX rates. Ask me something like: \x27How much fee for $100 USD to NGN?\x27"

/-- `"kw" in msg` of Python: substring containment. -/
def mentions (kw msg : String) : Bool := pyContains msg kw

/-- `fallback_respond(user_message)` of `app.py` (lines 229–244): the
message is lower-cased and stripped, then matched against keyword groups
in source order; the first matching group wins. -/
def fallback_respond (user_message : String) : String :=
  let msg := pyStrip (pyLower user_message)
  if mentions "fee" msg || mentions "fees" msg then feeSentence
  else if mentions "simulate" msg || mentions "calculator" msg then
    simulatorSentence
  else if mentions "referral" msg || mentions "swaptag" msg then
    referralSentence
  else if mentions "rate" msg || mentions "fx" msg || mentions "exchange" msg
    then fxSentence
  else genericSentence

/-- One persisted `chat_messages` row, as built in the `/api/chat` handler
(`app.py` lines 322–340): the `metaData` JSON is modelled as its
source/via tag paired with the `int(time.time())` it embeds. -/
structure ChatRec where
  swap_tag : Option String
  role : String
  content : String
  metaSource : String
  metaTime : ℤ
deriving Repr, DecidableEq

/-- Outcome of `POST /api/chat` (`chat`, `app.py` lines 269–348), together
with the rows actually persisted. -/
inductive ChatOutcome where
  /-- HTTP 400 `{"error": "message_required"}`. -/
  | missingMessage
  /-- HTTP 200 `{"reply": …, "saved": true}`. -/
  | ok (reply : String) (saved : List ChatRec)
  /-- A database exception escaped the `try/finally` (which has no
  `except`): Flask turns it into a generic HTTP 500; `saved` lists the
  rows committed before the failure. -/
  | dbError (saved : List ChatRec)
deriving Repr, DecidableEq

/-- Whether a `ChatOutcome` is the HTTP 200 reply case. -/
def ChatOutcome.isReply : ChatOutcome → Bool
  | .ok _ _ => true
  | _ => false

/-- The system prompt of the `/api/chat` handler (`app.py` lines
291–298). -/
def systemPrompt : String :=
  "You are VitalSwap Assistant. Answer clearly and concisely about fees, FX rates, the simulator, referral SwapTag usage, and general product questions. If the user asks for code or direct financial advice, be clear about assumptions."

/-- The conversation sent to the model (`app.py` lines 300–307): the
system prompt, then every history item with a valid role and non-empty
content, then the user message.  Items are `(role, content)` pairs. -/
def composeMessages (history : List (String × String)) (user_msg : String) :
    List (String × String) :=
  (("system", systemPrompt) ::
    history.filter (fun item =>
      (item.1 = "user" || item.1 = "assistant" || item.1 = "system") &&
        item.2 ≠ "")) ++ [("user", user_msg)]

/-- `chat` of `app.py` (lines 269–348), for a well-typed JSON body.  Note
the handler reads the message from the `"query"` key (not `"message"` as
its docstring says).  `llmConfigured` models `OPENAI_API_KEY and openai`;
`llm` is the chat-completion oracle (`none` = the call raised, masked by
the fallback); `userCommitOk`/`assistantCommitOk` model the two
`db.commit()` calls, whose failure propagates out of the `try/finally`. -/
def chat (llmConfigured : Bool)
    (llm : List (String × String) → Option String)
    (userCommitOk assistantCommitOk : Bool) (now : ℤ)
    (query : String) (swap_tag : Option String)
    (history : List (String × String)) : ChatOutcome :=
  if query = "" then .missingMessage
  else
    let messages := composeMessages history query
    let assistant_text :=
      if llmConfigured then
        match llm messages with
        | some text => text
        | none => fallback_respond query
      else fallback_respond query
    let user_record : ChatRec :=
      ⟨swap_tag, "user", query, "frontend", now⟩
    let assistant_record : ChatRec :=
      ⟨swap_tag, "assistant", assistant_text,
        if llmConfigured then "openai" else "fallback", now⟩
    if userCommitOk = false then .dbError []
    else if assistantCommitOk = false then .dbError [user_record]
    else .ok assistant_text [user_record, assistant_record]

end App

namespace Backendside

/-! ## `Backendside/__init__.py`: single-slot FX cache and simulation -/

/-- An upstream `/exchange` response body, idealised as a flat JSON object
of numeric fields (enough to express identity and Python truthiness, which
is non-emptiness).  `rate` is read as `fx_data.get("rate", 1)`. -/
abbrev ExData : Type := List (String × ℚ)

/-- `FX_CACHE = {"data": None, "timestamp": 0}` of
`Backendside/__init__.py` (line 21): a single slot, not keyed by currency
pair.  `data = none` is the initial `None`. -/
structure FxSlot where
  data : Option ExData
  timestamp : ℚ

/-- The initial `FX_CACHE` of `Backendside/__init__.py` (line 21). -/
def initFxSlot : FxSlot := { data := none, timestamp := 0 }

/-- Python truthiness of the cached value: present and non-empty. -/
def FxSlot.truthy (s : FxSlot) : Bool :=
  match s.data with
  | some d => !d.isEmpty
  | none => false

/-- Outcome of `GET /api/exchange` (`get_exchange`,
`Backendside/__init__.py` lines 42–62). -/
inductive ExOutcome where
  /-- HTTP 200 with the (possibly cached) upstream JSON. -/
  | ok (data : ExData)
  /-- HTTP 500 `{"error": "Failed to fetch exchange rate", …}`. -/
  | fetchFailed
deriving DecidableEq

/-- `get_exchange` of `Backendside/__init__.py` (lines 42–62).  The cache
freshness test `FX_CACHE["data"] and now - FX_CACHE["timestamp"] < 300`
never consults the requested `from`/`to` pair.  The upstream oracle takes
the pair; `none` models a failed request. -/
def get_exchange (upstream : String → String → Option ExData)
    (cache : FxSlot) (now : ℚ) (from_currency to_currency : String) :
    ExOutcome × FxSlot × ℕ :=
  if cache.truthy ∧ now - cache.timestamp < 300 then
    (.ok ((cache.data).getD []), cache, 0)
  else
    match upstream from_currency to_currency with
    | some d => (.ok d, { data := some d, timestamp := now }, 1)
    | none => (.fetchFailed, cache, 1)

/-- One service entry of the upstream fee schedule
(`fee_data["Customer"]["products"][…]["services"][0]`): its `rate` and
`min` fields. -/
structure FeeService where
  rate : ℚ
  min : ℚ
deriving Repr, DecidableEq

/-- A stored `referrals` row, as built in `simulate_transaction`
(`Backendside/__init__.py` lines 110–119). -/
structure Referral where
  swap_tag : String
  amount : ℚ
  fee_collected : ℚ
  referral_bonus : ℚ
  from_currency : String
  to_currency : String
  exchange_rate : ℚ
  converted_amount : ℚ
deriving Repr, DecidableEq

/-- Successful `simulate_transaction` response (lines 126–144), paired
with the persisted referral rows. -/
structure SimTxResponse where
  amount : ℚ
  from_currency : String
  to_currency : String
  swap_tag : String
  exchange_rate : ℚ
  percent_fee : ℚ
  fixed_fee : ℚ
  total_fee : ℚ
  converted_amount : ℚ
  referral_bonus : ℚ
  persisted : List Referral
deriving Repr, DecidableEq

/-- Outcome of `POST /api/simulate` (`simulate_transaction`,
`Backendside/__init__.py` lines 65–144). -/
inductive SimTxOutcome where
  /-- HTTP 200. -/
  | ok (resp : SimTxResponse)
  /-- HTTP 400 `{"error": "Amount must be greater than zero"}`. -/
  | invalidAmount
  /-- HTTP 500 `{"error": "No fee data found"}`. -/
  | noFeeData
  /-- An exception with no `try` around it (failed upstream request,
  missing key, empty `services` list): generic HTTP 500. -/
  | uncaughtError
deriving Repr, DecidableEq

/-- The reported `total_fee` of a 200 simulation response, if any. -/
def SimTxOutcome.totalFee : SimTxOutcome → Option ℚ
  | .ok r => some r.total_fee
  | _ => none

/-- The reported `converted_amount` of a 200 simulation response, if
any. -/
def SimTxOutcome.convertedAmount : SimTxOutcome → Option ℚ
  | .ok r => some r.converted_amount
  | _ => none

/-- `simulate_transaction` of `Backendside/__init__.py` (lines 65–144),
for a well-typed JSON body.  The amount check precedes both upstream
fetches; neither fetch is wrapped in `try`.  `fxRes` is the `/exchange`
response (`none` = request raised); its optional `"rate"` field defaults
to 1.  `feeRes` is the parsed `fee_data.get("Customer", {}).get("products",
{})` map (`none` = request raised), each product carrying its `services`
list. -/
def simulate_transaction (bonus_rate : ℚ)
    (fxRes : Option ExData)
    (feeRes : Option (List (String × List FeeService)))
    (amount : ℚ) (from_currency to_currency swap_tag : String) :
    SimTxOutcome :=
  if amount ≤ 0 then .invalidAmount
  else
    match fxRes with
    | none => .uncaughtError
    | some fx_data =>
      let fx_rate := (fx_data.lookup "rate").getD 1
      match feeRes with
      | none => .uncaughtError
      | some customer_data =>
        match customer_data with
        | [] => .noFeeData
        | (_, services) :: _ =>
          match services with
          | [] => .uncaughtError
          | service :: _ =>
            let percent_fee := service.rate
            let fixed_fee := service.min
            let total_fee := percent_fee * amount + fixed_fee
            let net_amount := amount - total_fee
            let converted_amount := roundTo 2 (net_amount * fx_rate)
            let referral_bonus := roundTo 2 (total_fee * bonus_rate)
            let row : Referral :=
              ⟨swap_tag, amount, total_fee, referral_bonus, from_currency,
                to_currency, fx_rate, converted_amount⟩
            .ok { amount := amount
                  from_currency := from_currency
                  to_currency := to_currency
                  swap_tag := swap_tag
                  exchange_rate := fx_rate
                  percent_fee := percent_fee
                  fixed_fee := fixed_fee
                  total_fee := total_fee
                  converted_amount := converted_amount
                  referral_bonus := referral_bonus
                  persisted := [row] }

end Backendside

namespace AppInfo

/-! ## `Backendside/appInfo.py`: `post_exchange` fee arithmetic -/

/-- The fee/conversion arithmetic of `post_exchange`
(`Backendside/appInfo.py` lines 134–140), given the `percent_fee` and
`fixed_fee` already resolved from the upstream schedule (lines 114–132)
and the fetched `fx_rate`.  Unlike the other variants, `total_fee` is
rounded to 2 places before the subtraction and `net_amount` is clamped at
zero by `max(0.0, …)`. -/
structure PostExchangeFees where
  percent_fee : ℚ
  fixed_fee : ℚ
  total_fee : ℚ
  net_amount : ℚ
  converted_amount : ℚ
  referral_bonus : ℚ
deriving Repr, DecidableEq

/-- `post_exchange` computation of `Backendside/appInfo.py`
(lines 134–140). -/
def post_exchange_fees (bonus_rate percent_fee fixed_fee fx_rate amount : ℚ) :
    PostExchangeFees :=
  let total_fee := percent_fee * amount + fixed_fee
  let total_fee := roundTo 2 total_fee
  let net_amount := max 0 (roundTo 2 (amount - total_fee))
  let converted_amount := roundTo 2 (net_amount * fx_rate)
  let referral_bonus := roundTo 2 (total_fee * bonus_rate)
  { percent_fee := percent_fee
    fixed_fee := fixed_fee
    total_fee := total_fee
    net_amount := net_amount
    converted_amount := converted_amount
    referral_bonus := referral_bonus }

end AppInfo

/-! ## Helper lemmas -/

lemma roundTo_nonneg (n : ℕ) {x : ℚ} (hx : 0 ≤ x) : 0 ≤ roundTo n x := by
  unfold roundTo
  apply div_nonneg _ (by positivity)
  have h10 : (0 : ℚ) ≤ (10 : ℚ) ^ n := by positivity
  have : (0 : ℤ) ≤ round (x * (10 : ℚ) ^ n) := by
    rw [round_eq]
    refine Int.le_floor.mpr ?_
    push_cast
    nlinarith
  exact_mod_cast this

/-- Closed form of `calculate_fee` on any plan of the `FEES` table. -/
lemma calculate_fee_eq (amount : ℚ) (plan : FeePlan) (hp : plan ∈ App.FEES) :
    App.calculate_fee amount ((plan.id : ℤ)) = Except.ok
      { plan := plan.name
        fixed_fee := roundTo 6 plan.fixed_fee
        percent_fee := plan.percent_fee
        percent_amount := roundTo 6 (amount * plan.percent_fee)
        total_fee := roundTo 6 (plan.fixed_fee + amount * plan.percent_fee)
        net_amount :=
          roundTo 6 (amount - (plan.fixed_fee + amount * plan.percent_fee)) } := by
  fin_cases hp <;> rfl

/-- Closed form of `simulate_transaction` when the amount is positive and
both upstream requests succeed with usable shapes. -/
lemma simulate_transaction_eq (bonus_rate : ℚ) (fx_data : Backendside.ExData)
    (pname : String) (service : Backendside.FeeService)
    (services : List Backendside.FeeService)
    (rest : List (String × List Backendside.FeeService))
    (amount : ℚ) (hpos : 0 < amount) (fromC toC tag : String) :
    Backendside.simulate_transaction bonus_rate (some fx_data)
        (some ((pname, service :: services) :: rest)) amount fromC toC tag =
      .ok { amount := amount
            from_currency := fromC
            to_currency := toC
            swap_tag := tag
            exchange_rate := (fx_data.lookup "rate").getD 1
            percent_fee := service.rate
            fixed_fee := service.min
            total_fee := service.rate * amount + service.min
            converted_amount :=
              roundTo 2 ((amount - (service.rate * amount + service.min)) *
                ((fx_data.lookup "rate").getD 1))
            referral_bonus :=
              roundTo 2 ((service.rate * amount + service.min) * bonus_rate)
            persisted := [⟨tag, amount, service.rate * amount + service.min,
              roundTo 2 ((service.rate * amount + service.min) * bonus_rate),
              fromC, toC, (fx_data.lookup "rate").getD 1,
              roundTo 2 ((amount - (service.rate * amount + service.min)) *
                ((fx_data.lookup "rate").getD 1))⟩] } := by
  unfold Backendside.simulate_transaction
  rw [if_neg (not_le.mpr hpos)]

/-! ## Claims -/

/-- **C1**, counterexample.  The claim asserts `net_amount = amount -
total_fee` (up to the per-field rounding) for every amount > 0 and known
fee-plan values.  In the `post_exchange` variant
(`Backendside/appInfo.py` lines 134–140) the net amount is clamped at
zero: with the Basic-plan fee values `fixed_fee = 0.5`,
`percent_fee = 0.005` and `amount = 0.1 > 0`, the reported `total_fee` is
`0.5` but the reported `net_amount` is `0`, whereas `amount - total_fee =
-0.4` (and also rounds to `-0.4`). -/
theorem post_exchange_clamps_net_amount :
    (AppInfo.post_exchange_fees (10/100) (5/1000) (1/2) 1480 (1/10)).total_fee
        = 1/2 ∧
    (AppInfo.post_exchange_fees (10/100) (5/1000) (1/2) 1480 (1/10)).net_amount
        = 0 ∧
    (0 : ℚ) ≠ (1/10 : ℚ) - 1/2 ∧
    (0 : ℚ) ≠ roundTo 2 ((1/10 : ℚ) - 1/2) := by
  have h1 : roundTo 2 ((5:ℚ)/1000 * (1/10) + 1/2) = 1/2 := by
    norm_num [roundTo, round_eq]
  have h2 : roundTo 2 ((1:ℚ)/10 - 1/2) = -2/5 := by
    norm_num [roundTo, round_eq]
  refine ⟨?_, ?_, by norm_num, ?_⟩
  · simp only [AppInfo.post_exchange_fees, h1]
  · simp only [AppInfo.post_exchange_fees, h1, h2]
    norm_num
  · rw [h2]; norm_num

/-- **C1** (amended): for every `amount > 0` and every known fee plan,
`calculate_fee` (`app.py`) reports `total_fee = round₆(fixed_fee + amount
* percent_fee)` and `net_amount = round₆(amount - total_fee_raw)`, and
`simulate_transaction` (`Backendside/__init__.py`) reports `total_fee =
percent_fee * amount + fixed_fee` exactly with the conversion applied to
`amount - total_fee`; in the `post_exchange` variant
(`Backendside/appInfo.py`) the same holds at 2-decimal rounding provided
the rounded total fee does not exceed the amount (otherwise the net
amount is clamped to zero, per the counterexample). -/
theorem fee_calculation_breakdown (amount : ℚ) (hpos : 0 < amount) :
    (∀ plan ∈ App.FEES,
      App.calculate_fee amount ((plan.id : ℤ)) = Except.ok
        { plan := plan.name
          fixed_fee := roundTo 6 plan.fixed_fee
          percent_fee := plan.percent_fee
          percent_amount := roundTo 6 (amount * plan.percent_fee)
          total_fee := roundTo 6 (plan.fixed_fee + amount * plan.percent_fee)
          net_amount :=
            roundTo 6 (amount - (plan.fixed_fee + amount * plan.percent_fee)) })
    ∧
    (∀ (bonus_rate : ℚ) (fx_data : Backendside.ExData) (pname : String)
        (service : Backendside.FeeService)
        (services : List Backendside.FeeService)
        (rest : List (String × List Backendside.FeeService))
        (fromC toC tag : String),
      Backendside.simulate_transaction bonus_rate (some fx_data)
          (some ((pname, service :: services) :: rest)) amount fromC toC tag =
        .ok { amount := amount
              from_currency := fromC
              to_currency := toC
              swap_tag := tag
              exchange_rate := (fx_data.lookup "rate").getD 1
              percent_fee := service.rate
              fixed_fee := service.min
              total_fee := service.rate * amount + service.min
              converted_amount :=
                roundTo 2 ((amount - (service.rate * amount + service.min)) *
                  ((fx_data.lookup "rate").getD 1))
              referral_bonus :=
                roundTo 2 ((service.rate * amount + service.min) * bonus_rate)
              persisted := [⟨tag, amount, service.rate * amount + service.min,
                roundTo 2 ((service.rate * amount + service.min) * bonus_rate),
                fromC, toC, (fx_data.lookup "rate").getD 1,
                roundTo 2 ((amount - (service.rate * amount + service.min)) *
                  ((fx_data.lookup "rate").getD 1))⟩] })
    ∧
    (∀ (bonus_rate percent_fee fixed_fee fx_rate : ℚ),
      roundTo 2 (percent_fee * amount + fixed_fee) ≤ amount →
        (AppInfo.post_exchange_fees bonus_rate percent_fee fixed_fee fx_rate
            amount).total_fee = roundTo 2 (fixed_fee + amount * percent_fee) ∧
        (AppInfo.post_exchange_fees bonus_rate percent_fee fixed_fee fx_rate
            amount).net_amount =
          roundTo 2 (amount - roundTo 2 (fixed_fee + amount * percent_fee))) := by
  refine ⟨?_, ?_, ?_⟩
  · intro plan hp
    exact calculate_fee_eq amount plan hp
  · intro bonus_rate fx_data pname service services rest fromC toC tag
    exact simulate_transaction_eq bonus_rate fx_data pname service services
      rest amount hpos fromC toC tag
  · intro bonus_rate percent_fee fixed_fee fx_rate hle
    have harg : percent_fee * amount + fixed_fee = fixed_fee + amount * percent_fee := by
      ring
    constructor
    · simp only [AppInfo.post_exchange_fees]
      rw [harg]
    · simp only [AppInfo.post_exchange_fees]
      rw [harg]
      have h0 : 0 ≤ amount - roundTo 2 (fixed_fee + amount * percent_fee) := by
        rw [← harg]; linarith
      exact max_eq_right (roundTo_nonneg 2 h0)

/-- **C1** witness: amount 100 with the Basic plan. -/
theorem fee_calculation_breakdown_witness :
    0 < (100 : ℚ) ∧
    App.calculate_fee 100 1 = Except.ok
      { plan := "Basic"
        fixed_fee := roundTo 6 (1/2)
        percent_fee := 5/1000
        percent_amount := roundTo 6 ((100 : ℚ) * (5/1000))
        total_fee := roundTo 6 ((1:ℚ)/2 + 100 * (5/1000))
        net_amount := roundTo 6 ((100 : ℚ) - (1/2 + 100 * (5/1000))) } :=
  ⟨by norm_num,
    (fee_calculation_breakdown 100 (by norm_num)).1
      ⟨1, "Basic", "For casual users", 1/2, 5/1000⟩ (by simp [App.FEES])⟩

/-- **C2**, counterexample.  The claim asserts `converted_amount =
round((amount - total_fee) * rate, 2)` for every simulation, but
`api_simulate` in `app.py` (line 183) rounds to 6 decimal places: with
amount 100, plan 1 (`total_fee = 1`) and rate 0.123456, it reports
12.222144, whereas 2-decimal rounding would give 12.22. -/
theorem api_simulate_rounds_to_six_places :
    ((App.api_simulate (fun _ => some ⟨[("NGN", 123456/1000000)], none⟩)
        App.initFxCache 1000 ⟨100, "USD", "NGN", 1, none⟩).1).totalFee
      = some 1 ∧
    ((App.api_simulate (fun _ => some ⟨[("NGN", 123456/1000000)], none⟩)
        App.initFxCache 1000 ⟨100, "USD", "NGN", 1, none⟩).1).convertedNet
      = some (12222144/1000000) ∧
    (12222144/1000000 : ℚ) ≠ roundTo 2 (((100:ℚ) - 1) * (123456/1000000)) := by
  refine ⟨?_, ?_, ?_⟩
  · show some (roundTo 6 ((1:ℚ)/2 + 100 * (5/1000))) = some 1
    norm_num [roundTo, round_eq]
  · show some (roundTo 6 (roundTo 6 ((100:ℚ) - (1/2 + 100 * (5/1000))) *
      (123456/1000000))) = some (12222144/1000000)
    norm_num [roundTo, round_eq]
  · norm_num [roundTo, round_eq]

/-- **C2** (amended): the conversion applies the formula
`converted = round((amount - total_fee) * rate, p)` with `p = 6` in
`api_simulate` of `app.py` (where `total_fee` is the 6-decimal-rounded fee
and the net amount equals `round₆(amount - total_fee_raw)`), and `p = 2`
in `simulate_transaction` of `Backendside/__init__.py`; for the example
amount=100, fixed_fee=0.5, percent_fee=0.005, rate=1480, both variants
report total_fee=1.0, net_amount=99.0, converted_amount=146520.0. -/
theorem converted_amount_formula (u : App.FxUpstream) (cache : App.FxCache)
    (now : ℤ) (payload : App.SimulatePayload) (plan : FeePlan)
    (rates : List (String × ℚ)) (b : String) (ts : ℤ) (rate : ℚ)
    (hplan : plan ∈ App.FEES) (hid : payload.fee_plan_id = ((plan.id : ℤ)))
    (hfx : (App.get_fx_rates u cache now
        (pyUpper payload.from_currency)).result = .ok (rates, b, ts))
    (hrate : rates.lookup (pyUpper payload.to_currency) = some rate) :
    (((App.api_simulate u cache now payload).1).convertedNet =
      some (roundTo 6 (roundTo 6 (payload.amount -
        (plan.fixed_fee + payload.amount * plan.percent_fee)) * rate)))
    ∧
    (∀ (bonus_rate amount : ℚ), 0 < amount →
      ∀ (fx_data : Backendside.ExData) (pname : String)
        (service : Backendside.FeeService)
        (services : List Backendside.FeeService)
        (rest : List (String × List Backendside.FeeService))
        (fromC toC tag : String),
        (Backendside.simulate_transaction bonus_rate (some fx_data)
            (some ((pname, service :: services) :: rest)) amount fromC toC
            tag).convertedAmount =
          some (roundTo 2 ((amount - (service.rate * amount + service.min)) *
            ((fx_data.lookup "rate").getD 1))))
    ∧
    (((App.api_simulate (fun _ => some ⟨[("NGN", 1480)], none⟩)
        App.initFxCache 1000 ⟨100, "USD", "NGN", 1, none⟩).1).totalFee
          = some 1 ∧
     ((App.api_simulate (fun _ => some ⟨[("NGN", 1480)], none⟩)
        App.initFxCache 1000 ⟨100, "USD", "NGN", 1, none⟩).1).netAmount
          = some 99 ∧
     ((App.api_simulate (fun _ => some ⟨[("NGN", 1480)], none⟩)
        App.initFxCache 1000 ⟨100, "USD", "NGN", 1, none⟩).1).convertedNet
          = some 146520)
    ∧
    ((Backendside.simulate_transaction (10/100) (some [("rate", 1480)])
        (some [("Transfers", [⟨5/1000, 1/2⟩])]) 100 "USD" "NGN"
        "TEAMEX").totalFee = some 1 ∧
     (Backendside.simulate_transaction (10/100) (some [("rate", 1480)])
        (some [("Transfers", [⟨5/1000, 1/2⟩])]) 100 "USD" "NGN"
        "TEAMEX").convertedAmount = some 146520) := by
  refine ⟨?_, ?_, ⟨?_, ?_, ?_⟩, ?_, ?_⟩
  · have hcf := calculate_fee_eq payload.amount plan hplan
    rcases e : App.get_fx_rates u cache now (pyUpper payload.from_currency)
      with ⟨res, c, n⟩
    rw [e] at hfx
    simp only at hfx
    subst hfx
    simp only [App.api_simulate, hid, hcf, e, hrate]
    rfl
  · intro bonus_rate amount hpos fx_data pname service services rest
      fromC toC tag
    rw [simulate_transaction_eq bonus_rate fx_data pname service services
      rest amount hpos fromC toC tag]
    rfl
  · show some (roundTo 6 ((1:ℚ)/2 + 100 * (5/1000))) = some 1
    norm_num [roundTo, round_eq]
  · show some (roundTo 6 ((100:ℚ) - (1/2 + 100 * (5/1000)))) = some 99
    norm_num [roundTo, round_eq]
  · show some (roundTo 6 (roundTo 6 ((100:ℚ) - (1/2 + 100 * (5/1000))) *
      1480)) = some 146520
    norm_num [roundTo, round_eq]
  · show some ((5:ℚ)/1000 * 100 + 1/2) = some 1
    norm_num
  · show some (roundTo 2 (((100:ℚ) - ((5:ℚ)/1000 * 100 + 1/2)) * 1480))
      = some 146520
    norm_num [roundTo, round_eq]

/-- **C2** witness: plan 2 at amount 10 with rate 2. -/
theorem converted_amount_formula_witness :
    ((⟨2, "Standard", "For active users", 1/4, 35/10000⟩ : FeePlan) ∈
      App.FEES) ∧
    ((App.api_simulate (fun _ => some ⟨[("NGN", 2)], none⟩)
        App.initFxCache 500 ⟨10, "usd", "ngn", 2, none⟩).1).convertedNet =
      some (roundTo 6 (roundTo 6 ((10:ℚ) - (1/4 + 10 * (35/10000))) * 2)) :=
  ⟨by simp [App.FEES],
    (converted_amount_formula (fun _ => some ⟨[("NGN", 2)], none⟩)
      App.initFxCache 500 ⟨10, "usd", "ngn", 2, none⟩
      ⟨2, "Standard", "For active users", 1/4, 35/10000⟩
      [("NGN", 2)] "USD" 500 2 (by simp [App.FEES]) rfl rfl rfl).1⟩

/-- **C3** (confirmed): for the `app.py` rate cache, after a first
`get_fx_rates` call that fetched a non-empty rate table for base `b`
upstream, a second call for the same base within the TTL window performs
zero upstream calls (for *any* upstream behaviour `u'`) and returns the
identical rates; and any call that finds the cache entry expired performs
exactly one upstream call. -/
theorem rate_cache_ttl (u u' : App.FxUpstream) (cache : App.FxCache)
    (t1 t2 : ℤ) (b : String) (resp : App.FxResponse)
    (hmiss : ¬(cache.rates ≠ [] ∧ cache.base = b ∧
      t1 - cache.ts < App.FX_TTL_SECONDS))
    (hup : u b = some resp)
    (hnonempty : resp.rates ≠ [])
    (hbase : resp.base.getD b = b)
    (hfresh : t2 - t1 < App.FX_TTL_SECONDS) :
    (App.get_fx_rates u cache t1 b =
      ⟨.ok (resp.rates, b, t1), ⟨resp.rates, b, t1⟩, 1⟩) ∧
    (App.get_fx_rates u' ⟨resp.rates, b, t1⟩ t2 b =
      ⟨.ok (resp.rates, b, t1), ⟨resp.rates, b, t1⟩, 0⟩) ∧
    (∀ (c : App.FxCache) (t : ℤ), App.FX_TTL_SECONDS ≤ t - c.ts →
      (App.get_fx_rates u' c t b).upstreamCalls = 1) := by
  refine ⟨?_, ?_, ?_⟩
  · unfold App.get_fx_rates
    rw [if_neg hmiss, hup]
    dsimp only
    rw [hbase]
  · unfold App.get_fx_rates
    rw [if_pos ⟨hnonempty, rfl, hfresh⟩]
  · intro c t ht
    unfold App.get_fx_rates
    rw [if_neg (by
      rintro ⟨-, -, hlt⟩
      omega)]
    cases u' b with
    | some r => rfl
    | none =>
      by_cases hc : c.rates = [] <;> simp [hc]

/-- **C3** witness: empty initial cache, fetch at `t = 100`, re-read at
`t = 200`. -/
theorem rate_cache_ttl_witness :
    (¬((App.initFxCache).rates ≠ [] ∧ (App.initFxCache).base = "USD" ∧
      (100 : ℤ) - (App.initFxCache).ts < App.FX_TTL_SECONDS)) ∧
    (App.get_fx_rates (fun _ => some ⟨[("EUR", 9/10)], none⟩)
      App.initFxCache 100 "USD" =
        ⟨.ok ([("EUR", 9/10)], "USD", 100), ⟨[("EUR", 9/10)], "USD", 100⟩, 1⟩) ∧
    (App.get_fx_rates (fun _ => none) ⟨[("EUR", 9/10)], "USD", 100⟩ 200 "USD" =
        ⟨.ok ([("EUR", 9/10)], "USD", 100), ⟨[("EUR", 9/10)], "USD", 100⟩, 0⟩) :=
  ⟨by decide,
    (rate_cache_ttl (fun _ => some ⟨[("EUR", 9/10)], none⟩) (fun _ => none)
      App.initFxCache 100 200 "USD" ⟨[("EUR", 9/10)], none⟩ (by decide) rfl
      (by decide) rfl (by decide)).1,
    (rate_cache_ttl (fun _ => some ⟨[("EUR", 9/10)], none⟩) (fun _ => none)
      App.initFxCache 100 200 "USD" ⟨[("EUR", 9/10)], none⟩ (by decide) rfl
      (by decide) rfl (by decide)).2.1⟩

/-- **C4**, counterexample.  The claim asserts every request with
`amount ≤ 0` fails with an `InvalidInput` HTTP 400 and computes no fee
breakdown, but `api_simulate` in `app.py` never validates the amount: with
`amount = -5` (plan 1, NGN supported upstream) it answers HTTP 200 with a
fully computed fee breakdown. -/
theorem api_simulate_accepts_nonpositive_amount :
    ((-5 : ℚ) ≤ 0) ∧
    ((App.api_simulate (fun _ => some ⟨[("NGN", 1480)], none⟩)
        App.initFxCache 1000 ⟨-5, "USD", "NGN", 1, none⟩).1).isOk = true ∧
    ((App.api_simulate (fun _ => some ⟨[("NGN", 1480)], none⟩)
        App.initFxCache 1000 ⟨-5, "USD", "NGN", 1, none⟩).1).totalFee =
      some (roundTo 6 ((1:ℚ)/2 + (-5) * (5/1000))) :=
  ⟨by norm_num, rfl, rfl⟩

/-- **C4** (amended): `api_calculate` in `app.py` and
`simulate_transaction` in `Backendside/__init__.py` reject every
`amount ≤ 0` with an HTTP 400 `InvalidInput` response regardless of the
other parameters, computing no fee breakdown and performing no upstream
call; `api_simulate` in `app.py` performs no such validation (see the
counterexample). -/
theorem nonpositive_amount_rejected (amount : ℚ) (hle : amount ≤ 0) :
    (∀ (pid : ℤ) (currency : String),
      App.api_calculate amount pid currency = .invalidAmount) ∧
    (∀ (bonus_rate : ℚ) (fxRes : Option Backendside.ExData)
        (feeRes : Option (List (String × List Backendside.FeeService)))
        (fromC toC tag : String),
      Backendside.simulate_transaction bonus_rate fxRes feeRes amount
        fromC toC tag = .invalidAmount) := by
  constructor
  · intro pid currency
    unfold App.api_calculate
    rw [if_pos hle]
  · intro bonus_rate fxRes feeRes fromC toC tag
    unfold Backendside.simulate_transaction
    rw [if_pos hle]

/-- **C4** witness: amount 0, unknown plan 999, with both upstream
requests failing (their results are never consulted). -/
theorem nonpositive_amount_rejected_witness :
    ((0 : ℚ) ≤ 0) ∧
    App.api_calculate 0 999 "USD" = .invalidAmount ∧
    Backendside.simulate_transaction (10/100) none none 0 "USD" "NGN" "TEAMEX"
      = .invalidAmount :=
  ⟨le_refl 0,
    (nonpositive_amount_rejected 0 (le_refl 0)).1 999 "USD",
    (nonpositive_amount_rejected 0 (le_refl 0)).2 (10/100) none none
      "USD" "NGN" "TEAMEX"⟩

/-- **C5**, counterexample.  With an unknown fee plan id (999),
`api_simulate` of `app.py` raises `ValueError("Invalid fee plan id")` at
line 173, *outside* any `try`: the request dies as an unhandled exception
(generic HTTP 500), not as an `InvalidInput` HTTP 400 response — though it
does happen before any upstream call (0 upstream calls performed). -/
theorem api_simulate_unknown_plan_uncaught :
    (App.api_simulate (fun _ => some ⟨[("NGN", 1480)], none⟩)
        App.initFxCache 1000 ⟨100, "USD", "NGN", 999, none⟩).1 =
      .uncaughtError "Invalid fee plan id" ∧
    (App.api_simulate (fun _ => some ⟨[("NGN", 1480)], none⟩)
        App.initFxCache 1000 ⟨100, "USD", "NGN", 999, none⟩).2.2.1 = 0 :=
  ⟨rfl, rfl⟩

/-- **C5** (amended): an unknown fee plan id makes `calculate_fee` raise
`"Invalid fee plan id"` before any upstream network call is attempted
(zero upstream calls); `api_calculate` surfaces this as an `InvalidInput`
HTTP 400, while `api_simulate` does not catch it (generic HTTP 500). -/
theorem unknown_fee_plan_rejected (pid : ℤ)
    (hunknown : ∀ plan ∈ App.FEES, ((plan.id : ℤ)) ≠ pid) :
    (∀ (amount : ℚ), 0 < amount → ∀ (currency : String),
      App.api_calculate amount pid currency =
        .badRequest "Invalid fee plan id") ∧
    (∀ (u : App.FxUpstream) (cache : App.FxCache) (now : ℤ)
        (payload : App.SimulatePayload), payload.fee_plan_id = pid →
      (App.api_simulate u cache now payload).1 =
        .uncaughtError "Invalid fee plan id" ∧
      (App.api_simulate u cache now payload).2.2.1 = 0) := by
  have hfind : App.FEES.find? (fun p => ((p.id : ℤ)) == pid) = none := by
    rw [List.find?_eq_none]
    intro p hp
    simpa using hunknown p hp
  have hcf : ∀ (amount : ℚ), App.calculate_fee amount pid =
      .error "Invalid fee plan id" := by
    intro amount
    unfold App.calculate_fee
    rw [hfind]
  constructor
  · intro amount hpos currency
    unfold App.api_calculate
    rw [if_neg (not_le.mpr hpos), hcf]
  · intro u cache now payload hpid
    constructor
    · simp only [App.api_simulate, hpid, hcf]
    · simp only [App.api_simulate, hpid, hcf]

/-- **C5** witness: plan id 999 at amount 100. -/
theorem unknown_fee_plan_rejected_witness :
    (∀ plan ∈ App.FEES, ((plan.id : ℤ)) ≠ 999) ∧
    App.api_calculate 100 999 "USD" = .badRequest "Invalid fee plan id" :=
  ⟨by decide,
    (unknown_fee_plan_rejected 999 (by decide)).1 100 (by norm_num) "USD"⟩

/-- **C6** (confirmed): when `get_fx_rates` misses the cache and the
upstream call fails, the stale cached rates are returned when any exist
(degraded mode); with an empty cache the exception propagates and
`api_fx_latest` surfaces it as an HTTP 503 `UpstreamUnavailable`
response. -/
theorem upstream_failure_fallback (u : App.FxUpstream) (cache : App.FxCache)
    (now : ℤ) (b : String)
    (hmiss : ¬(cache.rates ≠ [] ∧ cache.base = b ∧
      now - cache.ts < App.FX_TTL_SECONDS))
    (hfail : u b = none) :
    (cache.rates ≠ [] →
      App.get_fx_rates u cache now b =
        ⟨.ok (cache.rates, cache.base, cache.ts), cache, 1⟩) ∧
    (cache.rates = [] →
      App.get_fx_rates u cache now b = ⟨.error (), cache, 1⟩ ∧
      ∀ (baseParam : Option String), pyUpper (baseParam.getD "USD") = b →
        (App.api_fx_latest u cache now baseParam).1 = .unableToFetchFx) := by
  constructor
  · intro hne
    unfold App.get_fx_rates
    rw [if_neg hmiss, hfail, if_pos hne]
  · intro hempty
    have herr : App.get_fx_rates u cache now b = ⟨.error (), cache, 1⟩ := by
      unfold App.get_fx_rates
      rw [if_neg hmiss, hfail, if_neg (by simp [hempty])]
    refine ⟨herr, ?_⟩
    intro baseParam hbp
    simp only [App.api_fx_latest, hbp, herr]

/-- **C6** witness: a failing upstream against (a) a cache holding stale
EUR rates for a different base, which are served; (b) the empty initial
cache, which yields the 503. -/
theorem upstream_failure_fallback_witness :
    (App.get_fx_rates (fun _ => none) ⟨[("EUR", 1)], "EUR", 0⟩ 1000 "USD" =
      ⟨.ok ([("EUR", 1)], "EUR", 0), ⟨[("EUR", 1)], "EUR", 0⟩, 1⟩) ∧
    (App.get_fx_rates (fun _ => none) App.initFxCache 1000 "USD" =
      ⟨.error (), App.initFxCache, 1⟩) ∧
    (App.api_fx_latest (fun _ => none) App.initFxCache 1000 (some "usd")).1 =
      .unableToFetchFx :=
  ⟨(upstream_failure_fallback (fun _ => none) ⟨[("EUR", 1)], "EUR", 0⟩ 1000
      "USD" (by decide) rfl).1 (by decide),
    ((upstream_failure_fallback (fun _ => none) App.initFxCache 1000 "USD"
      (by decide) rfl).2 rfl).1,
    ((upstream_failure_fallback (fun _ => none) App.initFxCache 1000 "USD"
      (by decide) rfl).2 rfl).2 (some "usd") rfl⟩

/-- **C7** (confirmed): when the destination currency is absent from the
fetched rate table, `api_simulate` answers HTTP 400
`unsupported_currency` carrying the list of supported currencies (the
keys of the rate table), and persists nothing. -/
theorem unsupported_currency_rejected (u : App.FxUpstream)
    (cache : App.FxCache) (now : ℤ) (payload : App.SimulatePayload)
    (plan : FeePlan) (rates : List (String × ℚ)) (b : String) (ts : ℤ)
    (hplan : plan ∈ App.FEES) (hid : payload.fee_plan_id = ((plan.id : ℤ)))
    (hfx : (App.get_fx_rates u cache now
        (pyUpper payload.from_currency)).result = .ok (rates, b, ts))
    (hrate : rates.lookup (pyUpper payload.to_currency) = none) :
    (App.api_simulate u cache now payload).1 =
      .unsupportedCurrency (rates.map Prod.fst) ∧
    (App.api_simulate u cache now payload).2.2.2 = [] := by
  have hcf := calculate_fee_eq payload.amount plan hplan
  rcases e : App.get_fx_rates u cache now (pyUpper payload.from_currency)
    with ⟨res, c, n⟩
  rw [e] at hfx
  simp only at hfx
  subst hfx
  constructor
  · simp only [App.api_simulate, hid, hcf, e, hrate]
  · simp only [App.api_simulate, hid, hcf, e, hrate]

/-- **C7** witness: the upstream table only quotes EUR, the request asks
for NGN. -/
theorem unsupported_currency_rejected_witness :
    ([("EUR", (2:ℚ))].lookup "NGN" = none) ∧
    (App.api_simulate (fun _ => some ⟨[("EUR", 2)], none⟩) App.initFxCache
      1000 ⟨100, "USD", "NGN", 1, none⟩).1 =
        .unsupportedCurrency ["EUR"] :=
  ⟨rfl,
    (unsupported_currency_rejected (fun _ => some ⟨[("EUR", 2)], none⟩)
      App.initFxCache 1000 ⟨100, "USD", "NGN", 1, none⟩
      ⟨1, "Basic", "For casual users", 1/2, 5/1000⟩ [("EUR", 2)] "USD" 1000
      (by simp [App.FEES]) rfl rfl rfl).1⟩

/-- **C8**, counterexample.  The claim asserts that a database write
failure does not abort returning the reply, but the persistence block of
`/api/chat` (`app.py` lines 319–342) is a `try/finally` with no `except`:
when the first `db.commit()` raises, the handler dies with an unhandled
exception (generic HTTP 500) and no reply is returned. -/
theorem chat_db_failure_aborts_reply :
    App.chat false (fun _ => none) false true 1000 "hi" none [] =
      .dbError [] ∧
    (App.chat false (fun _ => none) false true 1000 "hi" none []).isReply =
      false :=
  ⟨rfl, rfl⟩

/-- **C8** (amended): the `/api/chat` handler returns HTTP 200 with the
reply only when both database commits succeed; a failure of the first
commit aborts with an unhandled error persisting nothing, and a failure
of the second aborts after persisting only the user row.  (Chat-model
failures, by contrast, are masked by the canned fallback and still yield
a 200.) -/
theorem chat_reply_requires_persistence (llmC : Bool)
    (llm : List (String × String) → Option String) (now : ℤ)
    (query : String) (swap_tag : Option String)
    (history : List (String × String)) (hq : ¬(query = "")) :
    ((App.chat llmC llm true true now query swap_tag history).isReply =
      true) ∧
    (∀ (b2 : Bool),
      App.chat llmC llm false b2 now query swap_tag history = .dbError []) ∧
    (App.chat llmC llm true false now query swap_tag history =
      .dbError [⟨swap_tag, "user", query, "frontend", now⟩]) ∧
    ((App.chat true (fun _ => none) true true now query swap_tag
        history).isReply = true) := by
  refine ⟨?_, ?_, ?_, ?_⟩
  · unfold App.chat
    rw [if_neg hq]
    rfl
  · intro b2
    unfold App.chat
    rw [if_neg hq]
    rfl
  · unfold App.chat
    rw [if_neg hq]
    rfl
  · unfold App.chat
    rw [if_neg hq]
    rfl

/-- **C8** witness: the fallback path at query `"hello"`. -/
theorem chat_reply_requires_persistence_witness :
    (¬(("hello" : String) = "")) ∧
    (App.chat false (fun _ => none) true true 5 "hello" none []).isReply =
      true ∧
    App.chat false (fun _ => none) false true 5 "hello" none [] =
      .dbError [] :=
  ⟨by decide,
    (chat_reply_requires_persistence false (fun _ => none) 5 "hello" none []
      (by decide)).1,
    (chat_reply_requires_persistence false (fun _ => none) 5 "hello" none []
      (by decide)).2.1 true⟩

/-- **C9**, counterexample.  The claim says any message not mentioning
"fee"/"simulate"/"referral"/"rate" maps to the generic greeting, but the
responder also triggers on "fx" (and "calculator", "swaptag",
"exchange"): the message `"fx"` mentions none of the four claimed
keywords yet maps to the FX sentence, not the generic one. -/
theorem fallback_extra_keywords :
    App.fallback_respond "fx" = App.fxSentence ∧
    App.fallback_respond "fx" ≠ App.genericSentence ∧
    App.mentions "fee" (pyStrip (pyLower "fx")) = false ∧
    App.mentions "simulate" (pyStrip (pyLower "fx")) = false ∧
    App.mentions "referral" (pyStrip (pyLower "fx")) = false ∧
    App.mentions "rate" (pyStrip (pyLower "fx")) = false :=
  ⟨rfl, by decide, rfl, rfl, rfl, rfl⟩

/-- **C9** (amended): the canned responder is a total function into five
fixed sentences, selected by keyword groups in priority order on the
lower-cased stripped message: "fee"/"fees" → fee sentence;
otherwise "simulate"/"calculator" → simulator sentence; otherwise
"referral"/"swaptag" → referral sentence; otherwise
"rate"/"fx"/"exchange" → FX sentence; otherwise the generic greeting. -/
theorem fallback_responder_total (msg : String) :
    (App.fallback_respond msg = App.feeSentence ∨
     App.fallback_respond msg = App.simulatorSentence ∨
     App.fallback_respond msg = App.referralSentence ∨
     App.fallback_respond msg = App.fxSentence ∨
     App.fallback_respond msg = App.genericSentence) ∧
    (App.mentions "fee" (pyStrip (pyLower msg)) = true →
      App.fallback_respond msg = App.feeSentence) ∧
    ((App.mentions "fee" (pyStrip (pyLower msg)) = false ∧
      App.mentions "fees" (pyStrip (pyLower msg)) = false) →
      (App.mentions "simulate" (pyStrip (pyLower msg)) = true ∨
       App.mentions "calculator" (pyStrip (pyLower msg)) = true) →
      App.fallback_respond msg = App.simulatorSentence) ∧
    ((App.mentions "fee" (pyStrip (pyLower msg)) = false ∧
      App.mentions "fees" (pyStrip (pyLower msg)) = false ∧
      App.mentions "simulate" (pyStrip (pyLower msg)) = false ∧
      App.mentions "calculator" (pyStrip (pyLower msg)) = false) →
      (App.mentions "referral" (pyStrip (pyLower msg)) = true ∨
       App.mentions "swaptag" (pyStrip (pyLower msg)) = true) →
      App.fallback_respond msg = App.referralSentence) ∧
    ((App.mentions "fee" (pyStrip (pyLower msg)) = false ∧
      App.mentions "fees" (pyStrip (pyLower msg)) = false ∧
      App.mentions "simulate" (pyStrip (pyLower msg)) = false ∧
      App.mentions "calculator" (pyStrip (pyLower msg)) = false ∧
      App.mentions "referral" (pyStrip (pyLower msg)) = false ∧
      App.mentions "swaptag" (pyStrip (pyLower msg)) = false) →
      (App.mentions "rate" (pyStrip (pyLower msg)) = true ∨
       App.mentions "fx" (pyStrip (pyLower msg)) = true ∨
       App.mentions "exchange" (pyStrip (pyLower msg)) = true) →
      App.fallback_respond msg = App.fxSentence) ∧
    ((App.mentions "fee" (pyStrip (pyLower msg)) = false ∧
      App.mentions "fees" (pyStrip (pyLower msg)) = false ∧
      App.mentions "simulate" (pyStrip (pyLower msg)) = false ∧
      App.mentions "calculator" (pyStrip (pyLower msg)) = false ∧
      App.mentions "referral" (pyStrip (pyLower msg)) = false ∧
      App.mentions "swaptag" (pyStrip (pyLower msg)) = false ∧
      App.mentions "rate" (pyStrip (pyLower msg)) = false ∧
      App.mentions "fx" (pyStrip (pyLower msg)) = false ∧
      App.mentions "exchange" (pyStrip (pyLower msg)) = false) →
      App.fallback_respond msg = App.genericSentence) := by
  refine ⟨?_, ?_, ?_, ?_, ?_, ?_⟩
  · unfold App.fallback_respond
    dsimp only
    split_ifs <;> simp
  · intro h
    simp [App.fallback_respond, h]
  · rintro ⟨h1, h2⟩ (h | h) <;>
      simp [App.fallback_respond, h1, h2, h]
  · rintro ⟨h1, h2, h3, h4⟩ (h | h) <;>
      simp [App.fallback_respond, h1, h2, h3, h4, h]
  · rintro ⟨h1, h2, h3, h4, h5, h6⟩ (h | h | h) <;>
      simp [App.fallback_respond, h1, h2, h3, h4, h5, h6, h]
  · rintro ⟨h1, h2, h3, h4, h5, h6, h7, h8, h9⟩
    simp [App.fallback_respond, h1, h2, h3, h4, h5, h6, h7, h8, h9]

/-- **C9** witness: a message mentioning "fee" gets the fee sentence; one
mentioning only "swaptag" gets the referral sentence. -/
theorem fallback_responder_total_witness :
    App.mentions "fee" (pyStrip (pyLower "What is the fee?")) = true ∧
    App.fallback_respond "What is the fee?" = App.feeSentence ∧
    App.fallback_respond "my swaptag please" = App.referralSentence :=
  ⟨by decide,
    (fallback_responder_total "What is the fee?").2.1 (by decide),
    (fallback_responder_total "my swaptag please").2.2.2.1
      (by refine ⟨?_, ?_, ?_, ?_⟩ <;> decide) (Or.inr (by decide))⟩

/-- **C10** (confirmed): the `FX_CACHE` of `Backendside/__init__.py` is a
single slot never keyed by currency pair: after a first `get_exchange`
request fetched and cached a non-empty (truthy) upstream response for one
pair, any second request within the 300-second TTL — for *any* other
`from`/`to` pair and *any* upstream behaviour — returns the first
request's cached response and performs zero upstream calls. -/
theorem fx_cache_single_slot
    (u u' : String → String → Option Backendside.ExData)
    (cache : Backendside.FxSlot) (t1 t2 : ℚ) (f1 c1 f2 c2 : String)
    (d : Backendside.ExData)
    (hmiss : ¬(cache.truthy = true ∧ t1 - cache.timestamp < 300))
    (hup : u f1 c1 = some d) (hne : d ≠ [])
    (hfresh : t2 - t1 < 300) :
    Backendside.get_exchange u cache t1 f1 c1 = (.ok d, ⟨some d, t1⟩, 1) ∧
    Backendside.get_exchange u' ⟨some d, t1⟩ t2 f2 c2 =
      (.ok d, ⟨some d, t1⟩, 0) := by
  have htruthy : Backendside.FxSlot.truthy ⟨some d, t1⟩ = true := by
    cases d with
    | nil => exact absurd rfl hne
    | cons x xs => rfl
  constructor
  · unfold Backendside.get_exchange
    rw [if_neg hmiss, hup]
  · unfold Backendside.get_exchange
    rw [if_pos ⟨htruthy, hfresh⟩]
    rfl

/-- **C10** witness: a first call for USD→NGN fills the slot; a second
call for EUR→GBP 200 seconds later, with an upstream that would fail,
still answers from the slot with zero upstream calls. -/
theorem fx_cache_single_slot_witness :
    Backendside.get_exchange (fun _ _ => some [("rate", 1480)])
      Backendside.initFxSlot 100 "USD" "NGN" =
        (.ok [("rate", 1480)], ⟨some [("rate", 1480)], 100⟩, 1) ∧
    Backendside.get_exchange (fun _ _ => none)
      ⟨some [("rate", 1480)], 100⟩ 300 "EUR" "GBP" =
        (.ok [("rate", 1480)], ⟨some [("rate", 1480)], 100⟩, 0) :=
  ⟨(fx_cache_single_slot (fun _ _ => some [("rate", 1480)]) (fun _ _ => none)
      Backendside.initFxSlot 100 300 "USD" "NGN" "EUR" "GBP" [("rate", 1480)]
      (by decide) rfl (by decide) (by norm_num)).1,
    (fx_cache_single_slot (fun _ _ => some [("rate", 1480)]) (fun _ _ => none)
      Backendside.initFxSlot 100 300 "USD" "NGN" "EUR" "GBP" [("rate", 1480)]
      (by decide) rfl (by decide) (by norm_num)).2⟩
